import Mathlib

/-!
Verification development for a Java language-server core (`src/main.rs`).

The program keeps three maps (document text, parsed tree, token locations),
rebuilds a token index on every document change (`on_change`), and answers
go-to-definition queries by an ancestor-chain walk (`goto_definition`).

The tree-sitter parser is an external collaborator: a syntax tree is an
input value here.  Tree nodes expose exactly what the collaborator's
contract provides: a node identity, a kind tag, named-ness, the text slice
covered by the node, a start/end point, and children.  Panics in the Rust
source (`unwrap`, `expect`, `panic!`) are modelled as an error outcome
carrying the panic message; partial mutations performed before a panic are
kept, matching the behaviour of a panicking handler.
-/

namespace Javals

/-- A zero-based (row, column) source point, mirroring `tree_sitter::Point`
(fields `row`, `column`, both `usize`). -/
structure Point where
  row : Nat
  column : Nat
deriving DecidableEq, Repr

/-- An LSP position, mirroring `lsp_types::Position` (fields `line`,
`character`, both `u32`; values are reduced modulo 2^32 where the source
casts with `as u32`). -/
structure Position where
  line : Nat
  character : Nat
deriving DecidableEq, Repr

/-- Mirrors `to_point` from the source: widening `u32 -> usize` casts, exact. -/
def to_point (position : Position) : Point :=
  { row := position.line, column := position.character }

/-- Mirrors `to_position` from the source: `usize as u32` truncates modulo 2^32. -/
def to_position (point : Point) : Position :=
  { line := point.row % 2 ^ 32, character := point.column % 2 ^ 32 }

/-- Mirrors the source's `TokenType` enum.  The `LocalVariable` variant of the
source declares a payload `&TokenLocation` (a reference with no lifetime, which
is ill-formed and never constructed anywhere in the source); the payload is
omitted here since no code path builds the variant. -/
inductive TokenType where
  | ClassName
  | MemberVariable
  | MethodName (parameterTypes : List String)
  | ParameterName (ty : Option String)
  | LocalVariable
deriving DecidableEq, Repr

/-- Mirrors the source's `TokenLocation` struct. -/
structure TokenLocation where
  uri : String
  start_position : Point
  end_position : Point
  token_type : TokenType
  scope_id : Nat
deriving DecidableEq, Repr

/-- A syntax-tree node as exposed by the external parser collaborator:
identity (`Node::id`), kind tag (`Node::kind`), named-ness, covered text
(`Node::utf8_text` against the document's source), start/end points, and
children in source order. -/
inductive Node where
  | mk (id : Nat) (kind : String) (isNamed : Bool) (text : String)
       (startPos : Point) (endPos : Point) (children : List Node)

def Node.id : Node → Nat
  | .mk i _ _ _ _ _ _ => i

def Node.kind : Node → String
  | .mk _ k _ _ _ _ _ => k

def Node.isNamed : Node → Bool
  | .mk _ _ n _ _ _ _ => n

def Node.text : Node → String
  | .mk _ _ _ t _ _ _ => t

def Node.startPos : Node → Point
  | .mk _ _ _ _ s _ _ => s

def Node.endPos : Node → Point
  | .mk _ _ _ _ _ e _ => e

def Node.children : Node → List Node
  | .mk _ _ _ _ _ _ cs => cs

/-- Mirrors `Node::named_children`: the children whose nodes are named. -/
def Node.namedChildren (n : Node) : List Node :=
  n.children.filter (fun c => c.isNamed)

/-- Lexicographic order on points: `p` at or after `q`'s start. -/
def pointLe (p q : Point) : Bool :=
  decide (p.row < q.row ∨ (p.row = q.row ∧ p.column ≤ q.column))

/-- Strict lexicographic order on points. -/
def pointLt (p q : Point) : Bool :=
  decide (p.row < q.row ∨ (p.row = q.row ∧ p.column < q.column))

/-- A node's span contains a point: start ≤ p < end. -/
def containsPoint (n : Node) (p : Point) : Bool :=
  pointLe n.startPos p && pointLt p n.endPos

mutual
/-- Mirrors `Node::named_descendant_for_point_range(p, p)`: the smallest named
node whose span contains the point, returned together with its chain of
ancestors (nearest first).  Returns `none` when no node contains the point. -/
def ndfpNode : Node → Point → List Node → Option (Node × List Node)
  | n@(.mk _ _ named _ s e cs), p, anc =>
    if pointLe s p && pointLt p e then
      match ndfpList cs p (n :: anc) with
      | some r => some r
      | none => if named then some (n, anc) else none
    else none

/-- Helper for `ndfpNode`: first child (in order) yielding a named descendant. -/
def ndfpList : List Node → Point → List Node → Option (Node × List Node)
  | [], _, _ => none
  | c :: cs, p, anc =>
    match ndfpNode c p anc with
    | some r => some r
    | none => ndfpList cs p anc
end

/-- Entry point matching `tree.root_node().named_descendant_for_point_range`. -/
def namedDescendantForPoint (root : Node) (p : Point) : Option (Node × List Node) :=
  ndfpNode root p []

/-- One node as visited by the pre-order traversal
(`tree_sitter_traversal::traverse`, `Order::Pre`), together with the context
the indexer reads through the tree API: the chain of ancestors (nearest
first, for `Node::parent`) and the following siblings in order (for
`Node::next_named_sibling`). -/
structure Visited where
  node : Node
  ancestors : List Node
  following : List Node

mutual
/-- Pre-order traversal of every node (named and anonymous), carrying
ancestor and following-sibling context. -/
def preorderCtx : Node → List Node → List Node → List Visited
  | n@(.mk _ _ _ _ _ _ cs), anc, foll =>
    ⟨n, anc, foll⟩ :: preorderChildren cs (n :: anc)

/-- Traversal of a child list: each child is visited with its later siblings
as following context. -/
def preorderChildren : List Node → List Node → List Visited
  | [], _ => []
  | c :: cs, anc => preorderCtx c anc cs ++ preorderChildren cs anc
end

/-- Mirrors `Node::next_named_sibling`: the first named node among the
following siblings. -/
def Visited.nextNamedSibling (v : Visited) : Option Node :=
  v.following.find? (fun s => s.isNamed)

/-- Parameter-type collection for the `method_declaration` branch of
`on_change` (source lines 241-258): when the sibling node is a
`formal_parameters` list, scan its named children in order; inside each
`formal_parameter`, push the text of every child of kind `integral_type` or
`type_identifier`, in order. -/
def collectParameterTypes (paramsNode : Node) : List String :=
  if paramsNode.kind = "formal_parameters" then
    paramsNode.namedChildren.foldl
      (fun acc paramNode =>
        if paramNode.kind ≠ "formal_parameter" then acc
        else
          paramNode.namedChildren.foldl
            (fun acc2 c =>
              match c.kind with
              | "integral_type" | "type_identifier" => acc2 ++ [c.text]
              | _ => acc2)
            acc)
      []
  else []

/-- Parameter-type resolution for the `formal_parameter` branch of
`on_change` (source lines 262-271): the first named child of the parameter
node whose kind is `integral_type` or `type_identifier`, if any. -/
def findParameterType (parent : Node) : Option String :=
  parent.namedChildren.findSome? (fun n =>
    match n.kind with
    | "integral_type" | "type_identifier" => some n.text
    | _ => none)

/-- Outcome of classifying one visited node in `on_change`'s loop: the node is
skipped (`continue`), indexing panics, or a `TokenLocation` entry is pushed
under the node's token text. -/
inductive StepResult where
  | skip
  | panicked (msg : String)
  | entry (token : String) (loc : TokenLocation)
deriving Repr

/-- The classification performed by `on_change`'s loop body (source lines
212-293) on one visited node.  The `local_variable_declaration` arm of the
source is present but empty (observed behaviour; the spec leaves the local
variable policy undefined), modelled as a skip. -/
def classifyVisited (uri : String) (v : Visited) : StepResult :=
  if v.node.kind ≠ "identifier" then .skip
  else
    match v.ancestors with
    | [] => .panicked "unwrap: identifier node has no parent"
    | parent :: rest =>
      let token := v.node.text
      match parent.kind with
      | "class_declaration" =>
        .entry token ⟨uri, v.node.startPos, v.node.endPos, .ClassName, parent.id⟩
      | "variable_declarator" =>
        match rest with
        | [] => .panicked "unwrap: variable_declarator node has no parent"
        | fieldDeclarationNode :: rest2 =>
          match fieldDeclarationNode.kind with
          | "field_declaration" =>
            match rest2 with
            | [] => .panicked "unwrap: field_declaration node has no parent"
            | classBodyNode :: _ =>
              if classBodyNode.kind ≠ "class_body" then
                .panicked ("expected class_body node, but got " ++ classBodyNode.kind)
              else
                .entry token ⟨uri, v.node.startPos, v.node.endPos, .MemberVariable, classBodyNode.id⟩
          | "local_variable_declaration" => .skip
          | _ => .skip
      | "method_declaration" =>
        match v.nextNamedSibling with
        | none => .panicked "unwrap: identifier node has no next named sibling"
        | some paramsNode =>
          .entry token
            ⟨uri, v.node.startPos, v.node.endPos,
             .MethodName (collectParameterTypes paramsNode), parent.id⟩
      | "formal_parameter" =>
        let parameterType := findParameterType parent
        match rest with
        | [] => .panicked "unwrap: formal_parameter node has no parent"
        | _formalParametersNode :: rest2 =>
          match rest2 with
          | [] => .panicked "unwrap: formal_parameters node has no parent"
          | methodDeclarationNode :: _ =>
            if methodDeclarationNode.kind ≠ "method_declaration" then
              .panicked ("expected method_declaration node, but got " ++ methodDeclarationNode.kind)
            else
              .entry token
                ⟨uri, v.node.startPos, v.node.endPos,
                 .ParameterName parameterType, methodDeclarationNode.id⟩
      | _ => .skip

/-- The token-text-keyed symbol table (`token_location_map`). -/
def TokenMap := String → Option (List TokenLocation)

/-- Symbol-table push as in source lines 294-297: insert an empty vector when
the key is absent, then push the location at the end. -/
def pushLoc (m : TokenMap) (token : String) (loc : TokenLocation) : TokenMap :=
  fun x => if x = token then some ((m token).getD [] ++ [loc]) else m x

/-- The indexing loop over the visited nodes: entries are pushed as they are
produced; a panic stops the loop, keeping the pushes already made. -/
def indexNodes (uri : String) : List Visited → TokenMap → TokenMap × Option String
  | [], m => (m, none)
  | v :: vs, m =>
    match classifyVisited uri v with
    | .skip => indexNodes uri vs m
    | .panicked msg => (m, some msg)
    | .entry token loc => indexNodes uri vs (pushLoc m token loc)

/-- The backend state: the three `DashMap`s of the source (the transport
client handle is out of scope). -/
structure Backend where
  document_map : String → Option String
  parsed_document_map : String → Option Node
  token_location_map : TokenMap

/-- The backend at process start: all maps empty. -/
def emptyBackend : Backend :=
  { document_map := fun _ => none
    parsed_document_map := fun _ => none
    token_location_map := fun _ => none }

/-- Pointwise update of a `String`-keyed map. -/
def updStr {α : Type} (m : String → Option α) (k : String) (v : α) : String → Option α :=
  fun x => if x = k then some v else m x

/-- Mirrors `on_change` (source lines 200-302): the parser collaborator's
tree for the new text is an input.  All nodes are traversed in pre-order and
classified; entries accumulate into the token table.  When no panic occurs,
the document text and tree are stored (source lines 299-300); a panic skips
those stores but keeps the pushes already performed. -/
def on_change (b : Backend) (uri text : String) (tree : Node) : Backend × Option String :=
  let visited := preorderCtx tree [] []
  let res := indexNodes uri visited b.token_location_map
  match res.2 with
  | some msg => ({ b with token_location_map := res.1 }, some msg)
  | none =>
    ({ document_map := updStr b.document_map uri text
       parsed_document_map := updStr b.parsed_document_map uri tree
       token_location_map := res.1 }, none)

/-- Mirrors `did_close` (source lines 120-125): the handler only logs; no map
is touched. -/
def did_close (b : Backend) (_uri : String) : Backend := b

/-- An LSP location as returned by the query (uri plus a range, flattening
`lsp_types::Location { uri, range: Range { start, end } }`). -/
structure Location where
  uri : String
  rangeStart : Position
  rangeEnd : Position
deriving DecidableEq, Repr

/-- Pointwise update of the `scope_id`-keyed map built in `goto_definition`. -/
def updNat (m : Nat → Option (Point × Point)) (k : Nat) (v : Point × Point) :
    Nat → Option (Point × Point) :=
  fun x => if x = k then some v else m x

/-- The scope map of `goto_definition` (source lines 161-164): fold the
candidate list in indexing order, inserting `scope_id ↦ (start, end)`;
a later candidate overwrites an earlier one with the same `scope_id`. -/
def scopeMapOf (locs : List TokenLocation) : Nat → Option (Point × Point) :=
  locs.foldl (fun m loc => updNat m loc.scope_id (loc.start_position, loc.end_position))
    (fun _ => none)

/-- The ancestor-chain walk of `goto_definition` (source lines 165-185):
starting from the identifier node, each ancestor in turn is looked up in the
scope map; the first hit's recorded span is returned, a walk that reaches
the root yields nothing. -/
def walkAncestors (anc : List Node) (m : Nat → Option (Point × Point)) :
    Option (Point × Point) :=
  match anc with
  | [] => none
  | parent :: rest =>
    match m parent.id with
    | some se => some se
    | none => walkAncestors rest m

/-- Mirrors `goto_definition` (source lines 127-187).  The state is threaded
through so the frame behaviour is visible; the second component is the
handler's outcome, with `Except.error` standing for a panic (`unwrap` on the
two document maps and on the base node's parent, `expect` on the node
lookup).  The dead `field_access` block (lines 148-159) only reads; its one
observable effect is the `parent().unwrap()` panic when the identifier is
the root. -/
def goto_definition (b : Backend) (uri : String) (position : Position) :
    Backend × Except String (Option Location) :=
  match b.parsed_document_map uri with
  | none => (b, .error "unwrap: parsed_document_map has no entry for uri")
  | some tree =>
    match b.document_map uri with
    | none => (b, .error "unwrap: document_map has no entry for uri")
    | some _sourceText =>
      match namedDescendantForPoint tree (to_point position) with
      | none => (b, .error "expect: unable to find node at position")
      | some (baseNode, anc) =>
        if baseNode.kind ≠ "identifier" then (b, .ok none)
        else
          match b.token_location_map baseNode.text with
          | none => (b, .ok none)
          | some locs =>
            match anc with
            | [] => (b, .error "unwrap: identifier node has no parent")
            | _ :: _ =>
              match walkAncestors anc (scopeMapOf locs) with
              | some (s, e) =>
                (b, .ok (some { uri := uri, rangeStart := to_position s, rangeEnd := to_position e }))
              | none => (b, .ok none)

/-! Concrete syntax trees, as the Java parser collaborator produces them.
Node identities are arbitrary but distinct within each tree, as tree-sitter
guarantees. -/

/-- Example document uri. -/
def uriA : String := "file:///a.java"

/-- Tree for the source `class Test {}`: identifier `Test` at (0,6)-(0,10)
under a `class_declaration`. -/
def identTest : Node := .mk 3 "identifier" true "Test" ⟨0, 6⟩ ⟨0, 10⟩ []

def classKw : Node := .mk 2 "class" false "class" ⟨0, 0⟩ ⟨0, 5⟩ []

def classBodyA : Node := .mk 4 "class_body" true "\x7b\x7d" ⟨0, 11⟩ ⟨0, 13⟩ []

def classDeclA : Node :=
  .mk 1 "class_declaration" true "class Test \x7b\x7d" ⟨0, 0⟩ ⟨0, 13⟩ [classKw, identTest, classBodyA]

def treeA : Node := .mk 0 "program" true "class Test \x7b\x7d" ⟨0, 0⟩ ⟨0, 13⟩ [classDeclA]

def textA : String := "class Test \x7b\x7d"

/-- The single entry indexing `treeA` produces. -/
def locTest : TokenLocation := ⟨uriA, ⟨0, 6⟩, ⟨0, 10⟩, .ClassName, 1⟩

/-- Backend after opening `class Test {}` at `uriA`. -/
def backendA : Backend := (on_change emptyBackend uriA textA treeA).1

example : (on_change emptyBackend uriA textA treeA).2 = none := rfl
example : backendA.token_location_map "Test" = some [locTest] := rfl
example : namedDescendantForPoint treeA ⟨0, 6⟩ = some (identTest, [classDeclA, treeA]) := rfl
example : (goto_definition backendA uriA ⟨0, 6⟩).2 =
    .ok (some { uri := uriA, rangeStart := ⟨0, 6⟩, rangeEnd := ⟨0, 10⟩ }) := rfl

/-- Tree for the valid Java source `class Test { Test(int a) {} }`: a
constructor declaration, whose parameter's enclosing declaration is a
`constructor_declaration`, not a `method_declaration`. -/
def identA31 : Node := .mk 31 "identifier" true "a" ⟨0, 27⟩ ⟨0, 28⟩ []

def intType30 : Node := .mk 30 "integral_type" true "int" ⟨0, 23⟩ ⟨0, 26⟩ []

def formalParam29 : Node :=
  .mk 29 "formal_parameter" true "int a" ⟨0, 23⟩ ⟨0, 28⟩ [intType30, identA31]

def lparen28 : Node := .mk 28 "(" false "(" ⟨0, 22⟩ ⟨0, 23⟩ []

def rparen32 : Node := .mk 32 ")" false ")" ⟨0, 28⟩ ⟨0, 29⟩ []

def formalParams27 : Node :=
  .mk 27 "formal_parameters" true "(int a)" ⟨0, 22⟩ ⟨0, 29⟩
    [lparen28, formalParam29, rparen32]

def identTest26 : Node := .mk 26 "identifier" true "Test" ⟨0, 18⟩ ⟨0, 22⟩ []

def ctorBody33 : Node := .mk 33 "constructor_body" true "\x7b\x7d" ⟨0, 30⟩ ⟨0, 32⟩ []

def ctorDecl25 : Node :=
  .mk 25 "constructor_declaration" true "Test(int a) \x7b\x7d" ⟨0, 18⟩ ⟨0, 32⟩
    [identTest26, formalParams27, ctorBody33]

def identTest23 : Node := .mk 23 "identifier" true "Test" ⟨0, 6⟩ ⟨0, 10⟩ []

def classKw22 : Node := .mk 22 "class" false "class" ⟨0, 0⟩ ⟨0, 5⟩ []

def classBody24 : Node :=
  .mk 24 "class_body" true "\x7b Test(int a) \x7b\x7d \x7d" ⟨0, 11⟩ ⟨0, 34⟩ [ctorDecl25]

def classDeclC : Node :=
  .mk 21 "class_declaration" true "class Test \x7b Test(int a) \x7b\x7d \x7d" ⟨0, 0⟩ ⟨0, 34⟩
    [classKw22, identTest23, classBody24]

def treeC : Node :=
  .mk 20 "program" true "class Test \x7b Test(int a) \x7b\x7d \x7d" ⟨0, 0⟩ ⟨0, 34⟩ [classDeclC]

def textC : String := "class Test \x7b Test(int a) \x7b\x7d \x7d"

example : (on_change emptyBackend uriA textC treeC).2 =
    some "expected method_declaration node, but got constructor_declaration" := rfl

/-- Tree for the valid Java source `class Test { void m(double a) {} }`: a
method whose only parameter has the primitive type `double`, whose node kind
is `floating_point_type` in the Java grammar. -/
def identA52 : Node := .mk 52 "identifier" true "a" ⟨0, 28⟩ ⟨0, 29⟩ []

def doubleType51 : Node := .mk 51 "floating_point_type" true "double" ⟨0, 21⟩ ⟨0, 27⟩ []

def formalParam50 : Node :=
  .mk 50 "formal_parameter" true "double a" ⟨0, 21⟩ ⟨0, 29⟩ [doubleType51, identA52]

def lparen49 : Node := .mk 49 "(" false "(" ⟨0, 20⟩ ⟨0, 21⟩ []

def rparen53 : Node := .mk 53 ")" false ")" ⟨0, 29⟩ ⟨0, 30⟩ []

def formalParams48 : Node :=
  .mk 48 "formal_parameters" true "(double a)" ⟨0, 20⟩ ⟨0, 30⟩
    [lparen49, formalParam50, rparen53]

def identM47 : Node := .mk 47 "identifier" true "m" ⟨0, 18⟩ ⟨0, 19⟩ []

def voidType46 : Node := .mk 46 "void_type" true "void" ⟨0, 13⟩ ⟨0, 17⟩ []

def block54 : Node := .mk 54 "block" true "\x7b\x7d" ⟨0, 31⟩ ⟨0, 33⟩ []

def methodDecl45 : Node :=
  .mk 45 "method_declaration" true "void m(double a) \x7b\x7d" ⟨0, 13⟩ ⟨0, 33⟩
    [voidType46, identM47, formalParams48, block54]

def identTest43 : Node := .mk 43 "identifier" true "Test" ⟨0, 6⟩ ⟨0, 10⟩ []

def classKw42 : Node := .mk 42 "class" false "class" ⟨0, 0⟩ ⟨0, 5⟩ []

def classBody44 : Node :=
  .mk 44 "class_body" true "\x7b void m(double a) \x7b\x7d \x7d" ⟨0, 11⟩ ⟨0, 35⟩ [methodDecl45]

def classDeclM : Node :=
  .mk 41 "class_declaration" true "class Test \x7b void m(double a) \x7b\x7d \x7d" ⟨0, 0⟩ ⟨0, 35⟩
    [classKw42, identTest43, classBody44]

def treeM : Node :=
  .mk 40 "program" true "class Test \x7b void m(double a) \x7b\x7d \x7d" ⟨0, 0⟩ ⟨0, 35⟩ [classDeclM]

def textM : String := "class Test \x7b void m(double a) \x7b\x7d \x7d"

example : (on_change emptyBackend uriA textM treeM).2 = none := rfl
example : (on_change emptyBackend uriA textM treeM).1.token_location_map "m" =
    some [⟨uriA, ⟨0, 18⟩, ⟨0, 19⟩, .MethodName [], 45⟩] := rfl

/-- A `formal_parameters` node for the parameter list `(int a, String b)`. -/
def intType63 : Node := .mk 63 "integral_type" true "int" ⟨0, 7⟩ ⟨0, 10⟩ []

def identA64 : Node := .mk 64 "identifier" true "a" ⟨0, 11⟩ ⟨0, 12⟩ []

def formalParam62 : Node :=
  .mk 62 "formal_parameter" true "int a" ⟨0, 7⟩ ⟨0, 12⟩ [intType63, identA64]

def comma65 : Node := .mk 65 "," false "," ⟨0, 12⟩ ⟨0, 13⟩ []

def stringType67 : Node := .mk 67 "type_identifier" true "String" ⟨0, 14⟩ ⟨0, 20⟩ []

def identB68 : Node := .mk 68 "identifier" true "b" ⟨0, 21⟩ ⟨0, 22⟩ []

def formalParam66 : Node :=
  .mk 66 "formal_parameter" true "String b" ⟨0, 14⟩ ⟨0, 22⟩ [stringType67, identB68]

def lparen61 : Node := .mk 61 "(" false "(" ⟨0, 6⟩ ⟨0, 7⟩ []

def rparen69 : Node := .mk 69 ")" false ")" ⟨0, 22⟩ ⟨0, 23⟩ []

def formalParamsIS : Node :=
  .mk 60 "formal_parameters" true "(int a, String b)" ⟨0, 6⟩ ⟨0, 23⟩
    [lparen61, formalParam62, comma65, formalParam66, rparen69]

example : collectParameterTypes formalParamsIS = ["int", "String"] := rfl

/-- A method declaration `int m(int a, String b) {}` around `formalParamsIS`,
and the visit of its name identifier as the traversal produces it. -/
def identM72 : Node := .mk 72 "identifier" true "m" ⟨0, 4⟩ ⟨0, 5⟩ []

def intType71 : Node := .mk 71 "integral_type" true "int" ⟨0, 0⟩ ⟨0, 3⟩ []

def block73 : Node := .mk 73 "block" true "\x7b\x7d" ⟨0, 24⟩ ⟨0, 26⟩ []

def methodDecl70 : Node :=
  .mk 70 "method_declaration" true "int m(int a, String b) \x7b\x7d" ⟨0, 0⟩ ⟨0, 26⟩
    [intType71, identM72, formalParamsIS, block73]

def visitedM72 : Visited :=
  ⟨identM72, [methodDecl70], [formalParamsIS, block73]⟩

example : classifyVisited uriA visitedM72 =
    .entry "m" ⟨uriA, ⟨0, 4⟩, ⟨0, 5⟩, .MethodName ["int", "String"], 70⟩ := rfl

/-! Theorems settling the claims. -/

/-- C1: the claim states that every not-found condition of a definition query
(document not open, no node at the position, token not indexed, no ancestor
match) resolves to an absent result and never a fault.  The code violates the
first two: querying a uri with no open document panics on `unwrap` of the
parsed-document map (source line 131), and querying a position outside every
node panics on the `expect` of the node lookup (source line 137).  This
theorem evaluates both failing inputs. -/
theorem C1_not_found_conditions_fault :
    (goto_definition emptyBackend uriA ⟨0, 0⟩).2 =
      .error "unwrap: parsed_document_map has no entry for uri" ∧
    (goto_definition backendA uriA ⟨9, 9⟩).2 =
      .error "expect: unable to find node at position" :=
  ⟨rfl, rfl⟩

/-- C2: the claim states that indexing never aborts on unrecognized syntax.
The code panics (source line 278) when a formal parameter's enclosing
declaration is not a `method_declaration`; the valid Java source
`class Test { Test(int a) {} }` — a constructor — triggers it. -/
theorem C2_indexing_aborts_on_constructor_parameter :
    (on_change emptyBackend uriA textC treeC).2 =
      some "expected method_declaration node, but got constructor_declaration" :=
  rfl

/-- C3: the claim states that reindexing unchanged text is idempotent because
each reindex fully replaces the document's entries.  The code appends
(source lines 294-297): indexing `class Test {}` twice leaves two identical
`TokenLocation` entries for `Test` where one pass leaves one. -/
theorem C3_reindex_appends_duplicate :
    backendA.token_location_map "Test" = some [locTest] ∧
    (on_change backendA uriA textA treeA).1.token_location_map "Test" =
      some [locTest, locTest] :=
  ⟨rfl, rfl⟩

/-- C4: the claim states that after a close, a definition query against that
uri returns no result because close purges text, tree and token entries.
The `did_close` handler removes nothing (source lines 120-125), so the query
still resolves `Test` to its declaration after the document is closed. -/
theorem C4_close_does_not_purge :
    (goto_definition (did_close backendA uriA) uriA ⟨0, 6⟩).2 =
      .ok (some { uri := uriA, rangeStart := ⟨0, 6⟩, rangeEnd := ⟨0, 10⟩ }) :=
  rfl

/-- Helper: `List.find?` over an append searches the left list first. -/
theorem find?_append {α : Type} (p : α → Bool) (l₁ l₂ : List α) :
    (l₁ ++ l₂).find? p = ((l₁.find? p).orElse (fun _ => l₂.find? p)) := by
  induction l₁ with
  | nil => simp
  | cons a l₁ ih =>
    by_cases h : p a
    · simp [List.find?_cons_of_pos _ h, Option.orElse]
    · simp only [Bool.not_eq_true] at h
      simp [List.find?_cons_of_neg, h, ih]

/-- Helper: the scope-map fold with an arbitrary accumulator is determined by
the last matching candidate. -/
theorem scopeMap_foldl_eq (locs : List TokenLocation)
    (acc : Nat → Option (Point × Point)) (sid : Nat) :
    (locs.foldl
      (fun m loc => updNat m loc.scope_id (loc.start_position, loc.end_position)) acc) sid =
      match locs.reverse.find? (fun l => l.scope_id == sid) with
      | some l => some (l.start_position, l.end_position)
      | none => acc sid := by
  induction locs generalizing acc with
  | nil => rfl
  | cons l ls ih =>
    rw [List.foldl_cons, ih, List.reverse_cons, find?_append]
    cases h : ls.reverse.find? (fun l' => l'.scope_id == sid) with
    | some l' => simp [Option.orElse]
    | none =>
      by_cases hsid : l.scope_id = sid
      · simp [Option.orElse, List.find?_cons_of_pos, hsid, updNat]
      · have hb : (l.scope_id == sid) = false := by simp [hsid]
        simp [Option.orElse, List.find?_cons_of_neg, hb, updNat, hsid, Ne.symm hsid]

/-- C6: when several candidate locations for the queried token share a
`scope_id`, the scope map built by `goto_definition` records the span of the
candidate occurring last in indexing order (last-write-wins). -/
theorem C6_scope_map_last_write_wins (locs : List TokenLocation) (sid : Nat) :
    scopeMapOf locs sid =
      (locs.reverse.find? (fun l => l.scope_id == sid)).map
        (fun l => (l.start_position, l.end_position)) := by
  rw [scopeMapOf, scopeMap_foldl_eq]
  cases h : locs.reverse.find? (fun l => l.scope_id == sid) <;> simp

/-- Restatement of spec steps 6-7 in find-first form, for comparison with the
source's loop: the first ancestor (nearest first) whose node identity is a
key of the scope map determines the returned location; no match means no
result. -/
def resolveViaAncestors (uri : String) (anc : List Node)
    (m : Nat → Option (Point × Point)) : Option Location :=
  ((anc.find? (fun a => (m a.id).isSome)).bind (fun a => m a.id)).map
    (fun se => { uri := uri, rangeStart := to_position se.1, rangeEnd := to_position se.2 })

/-- Helper: the source's walk loop equals the find-first formulation. -/
theorem walkAncestors_eq_find? (anc : List Node) (m : Nat → Option (Point × Point)) :
    walkAncestors anc m = (anc.find? (fun a => (m a.id).isSome)).bind (fun a => m a.id) := by
  induction anc with
  | nil => rfl
  | cons a rest ih =>
    rw [walkAncestors]
    cases h : m a.id with
    | some se => rw [List.find?_cons_of_pos _ (by simp [h])]; simp [h]
    | none => rw [List.find?_cons_of_neg _ (by simp [h])]; exact ih

/-- C5: for every definition query that reaches the walk (document open, node
found, node is an identifier, token has candidates), the result is the
recorded location of the first ancestor whose node identity is a key of the
scope map, and no result when the walk reaches the root without a match. -/
theorem C5_ancestor_chain_walk (b : Backend) (uri : String) (position : Position)
    (tree : Node) (text : String) (n p : Node) (rest : List Node)
    (locs : List TokenLocation)
    (h1 : b.parsed_document_map uri = some tree)
    (h2 : b.document_map uri = some text)
    (h3 : namedDescendantForPoint tree (to_point position) = some (n, p :: rest))
    (h4 : n.kind = "identifier")
    (h5 : b.token_location_map n.text = some locs) :
    (goto_definition b uri position).2 =
      .ok (resolveViaAncestors uri (p :: rest) (scopeMapOf locs)) := by
  simp only [goto_definition, h1, h2, h3, h4, h5, ne_eq, not_true_eq_false, if_false,
    ite_false]
  rw [resolveViaAncestors, ← walkAncestors_eq_find?]
  cases h : walkAncestors (p :: rest) (scopeMapOf locs) with
  | some se => cases se; simp [h]
  | none => simp [h]

/-- C5 witness: the query at the `Test` identifier of `class Test {}`
satisfies every hypothesis and resolves through the ancestor walk. -/
theorem C5_ancestor_chain_walk_witness :
    backendA.parsed_document_map uriA = some treeA ∧
    backendA.document_map uriA = some textA ∧
    namedDescendantForPoint treeA (to_point ⟨0, 6⟩) = some (identTest, [classDeclA, treeA]) ∧
    identTest.kind = "identifier" ∧
    backendA.token_location_map identTest.text = some [locTest] ∧
    (goto_definition backendA uriA ⟨0, 6⟩).2 =
      .ok (resolveViaAncestors uriA [classDeclA, treeA] (scopeMapOf [locTest])) :=
  ⟨rfl, rfl, rfl, rfl, rfl,
   C5_ancestor_chain_walk backendA uriA ⟨0, 6⟩ treeA textA identTest classDeclA [treeA]
     [locTest] rfl rfl rfl rfl rfl⟩

/-- C8: a definition query whose position falls on a node whose kind is not
`identifier` returns no result and no fault. -/
theorem C8_non_identifier_returns_none (b : Backend) (uri : String) (position : Position)
    (tree : Node) (text : String) (n : Node) (anc : List Node)
    (h1 : b.parsed_document_map uri = some tree)
    (h2 : b.document_map uri = some text)
    (h3 : namedDescendantForPoint tree (to_point position) = some (n, anc))
    (h4 : n.kind ≠ "identifier") :
    (goto_definition b uri position).2 = .ok none := by
  simp only [goto_definition, h1, h2, h3]
  rw [if_pos h4]

/-- C8 witness: the query at (0,0) of `class Test {}` lands on the `class`
keyword, whose smallest named node is the `class_declaration`. -/
theorem C8_non_identifier_returns_none_witness :
    classDeclA.kind ≠ "identifier" ∧
    (goto_definition backendA uriA ⟨0, 0⟩).2 = .ok none :=
  ⟨by decide,
   C8_non_identifier_returns_none backendA uriA ⟨0, 0⟩ treeA textA classDeclA [treeA]
     rfl rfl rfl (by decide)⟩

/-- C9: whenever a definition query resolves, the uri of the returned
location is the query's own uri; the uri stored in the matching candidate is
never consulted. -/
theorem C9_result_uri_is_query_uri (b : Backend) (uri : String) (position : Position)
    (loc : Location) (h : (goto_definition b uri position).2 = .ok (some loc)) :
    loc.uri = uri := by
  simp only [goto_definition] at h
  repeat' split at h
  all_goals simp_all
  subst h
  rfl

/-- A candidate stored under a different uri than the queried document. -/
def locTestOther : TokenLocation := ⟨"file:///other.java", ⟨0, 6⟩, ⟨0, 10⟩, .ClassName, 1⟩

/-- A backend whose only candidate for `Test` was indexed from another
document. -/
def backendCross : Backend :=
  { document_map := updStr (fun _ => none) uriA textA
    parsed_document_map := updStr (fun _ => none) uriA treeA
    token_location_map := updStr (fun _ => none) "Test" [locTestOther] }

/-- The location the cross-document query returns. -/
def locAnswerA : Location := { uri := uriA, rangeStart := ⟨0, 6⟩, rangeEnd := ⟨0, 10⟩ }

/-- C9 witness: the candidate's stored uri is `file:///other.java`, yet the
query against `file:///a.java` reports its own uri. -/
theorem C9_result_uri_is_query_uri_witness :
    (goto_definition backendCross uriA ⟨0, 6⟩).2 = .ok (some locAnswerA) ∧
    locAnswerA.uri = uriA :=
  ⟨rfl, C9_result_uri_is_query_uri backendCross uriA ⟨0, 6⟩ locAnswerA rfl⟩

/-- C10: a definition query is read-only: the backend state (document map,
parsed-tree map and token-location map) after the handler is the state
before it, whatever the query. -/
theorem C10_goto_definition_read_only (b : Backend) (uri : String) (position : Position) :
    (goto_definition b uri position).1 = b := by
  unfold goto_definition
  repeat' split
  all_goals rfl

/-- Follows the spec's words, for comparison with the source's extraction:
the spec collects "the type token of each parameter that is a primitive or
named type".  In the Java grammar of the parser collaborator the primitive
type kinds are `integral_type`, `floating_point_type` and `boolean_type`,
and a named type is a `type_identifier`. -/
def specPrimitiveOrNamedTypeKind (kind : String) : Bool :=
  kind == "integral_type" || kind == "floating_point_type" ||
    kind == "boolean_type" || kind == "type_identifier"

/-- Follows the spec's words, for comparison with `collectParameterTypes`:
scan the parameter-list node's children in declaration order and collect the
type token of each parameter that is a primitive or named type. -/
def specParameterTypes (paramsNode : Node) : List String :=
  (paramsNode.namedChildren.filter (fun p => p.kind == "formal_parameter")).flatMap
    (fun p => (p.namedChildren.filter
      (fun c => specPrimitiveOrNamedTypeKind c.kind)).map Node.text)

/-- Helper: the inner fold of `collectParameterTypes` appends, in order, the
texts of the children whose kind is `integral_type` or `type_identifier`. -/
theorem paramType_inner_foldl (cs : List Node) (acc : List String) :
    cs.foldl
      (fun acc2 c =>
        match c.kind with
        | "integral_type" | "type_identifier" => acc2 ++ [c.text]
        | _ => acc2) acc =
      acc ++ (cs.filter
        (fun c => c.kind == "integral_type" || c.kind == "type_identifier")).map Node.text := by
  induction cs generalizing acc with
  | nil => simp
  | cons c cs ih =>
    rw [List.foldl_cons, ih, List.filter_cons]
    by_cases h1 : c.kind = "integral_type"
    · simp [h1]
    · by_cases h2 : c.kind = "type_identifier"
      · simp [h2]
      · simp [h1, h2]

/-- Helper: the outer fold of `collectParameterTypes` concatenates, per
`formal_parameter` child in order, the inner collection. -/
theorem paramType_outer_foldl (ps : List Node) (acc : List String) :
    ps.foldl
      (fun acc paramNode =>
        if paramNode.kind ≠ "formal_parameter" then acc
        else
          paramNode.namedChildren.foldl
            (fun acc2 c =>
              match c.kind with
              | "integral_type" | "type_identifier" => acc2 ++ [c.text]
              | _ => acc2)
            acc) acc =
      acc ++ (ps.filter (fun p => p.kind == "formal_parameter")).flatMap
        (fun p => (p.namedChildren.filter
          (fun c => c.kind == "integral_type" || c.kind == "type_identifier")).map Node.text) := by
  induction ps generalizing acc with
  | nil => simp
  | cons p ps ih =>
    rw [List.foldl_cons, ih, List.filter_cons]
    by_cases h : p.kind = "formal_parameter"
    · simp [h, paramType_inner_foldl]
    · simp [h]

/-- C7 counterexample: for the valid Java source
`class Test { void m(double a) {} }`, the parameter `a` has the primitive
type `double` (kind `floating_point_type`), yet the recorded `MethodName`
parameter list is empty: the source only matches `integral_type` and
`type_identifier`, so the claim's "each parameter that is a primitive or
named type" fails at this input. -/
theorem C7_counterexample_double_parameter :
    (on_change emptyBackend uriA textM treeM).1.token_location_map "m" =
      some [⟨uriA, ⟨0, 18⟩, ⟨0, 19⟩, .MethodName [], 45⟩] ∧
    specParameterTypes formalParams48 = ["double"] ∧
    specPrimitiveOrNamedTypeKind doubleType51.kind = true ∧
    "double" ∉ ([] : List String) :=
  ⟨rfl, rfl, rfl, by simp⟩

/-- C7 (amended): for every indexed method declaration, the parameter type
list recorded in `MethodName` contains, in source declaration order, the
type token of each parameter whose type is an integral primitive
(`integral_type`) or a named type (`type_identifier`); other primitive
types (floating-point, boolean) are not recorded.  For parameters
`(int a, String b)` the recorded sequence is `["int", "String"]`. -/
theorem C7_amended_parameter_types (pn : Node) (hf : pn.kind = "formal_parameters") :
    collectParameterTypes pn =
      (pn.namedChildren.filter (fun p => p.kind == "formal_parameter")).flatMap
        (fun p => (p.namedChildren.filter
          (fun c => c.kind == "integral_type" || c.kind == "type_identifier")).map Node.text) := by
  rw [collectParameterTypes, if_pos hf, paramType_outer_foldl]
  simp

/-- C7 witness: the parameter list `(int a, String b)` satisfies the
hypothesis and the recorded sequence is `["int", "String"]`; the
classification of the enclosing method's name records exactly that list. -/
theorem C7_amended_parameter_types_witness :
    formalParamsIS.kind = "formal_parameters" ∧
    collectParameterTypes formalParamsIS =
      (formalParamsIS.namedChildren.filter (fun p => p.kind == "formal_parameter")).flatMap
        (fun p => (p.namedChildren.filter
          (fun c => c.kind == "integral_type" || c.kind == "type_identifier")).map Node.text) ∧
    collectParameterTypes formalParamsIS = ["int", "String"] ∧
    classifyVisited uriA visitedM72 =
      .entry "m" ⟨uriA, ⟨0, 4⟩, ⟨0, 5⟩, .MethodName ["int", "String"], 70⟩ :=
  ⟨rfl, C7_amended_parameter_types formalParamsIS rfl, rfl, rfl⟩

end Javals
